import Mathlib

/-!
Shallow embedding of `src/script.js` of the Borderline repository: an
interactive map widget that resolves a free-text query to a country,
overlays its boundary on a Leaflet map with a flag-pattern fill, and
shows loading/error feedback via a toast.

The DOM, Leaflet and d3 are external collaborators; we model exactly the
state the script mutates: the `featureLayers` array, the set of layers
attached to the map, the `isSearching` flag, the preloaded
`countryBordersGeoJSON`, the `svgDefs` pattern definitions, the icon
shown in the trigger control, and the toast log.  Network calls
(`fetch`) are modelled by an environment mapping each query string to
the outcome of the REST Countries request; the number of requests
issued is tracked in `fetchCount`.
-/

namespace Borderline

/-- One feature of the preloaded boundary GeoJSON: the script reads
`feature.properties.ISO_A3`; the dataset also carries a display name
property, which the script never consults.  Geometry is an abstract
payload tag. -/
structure BoundaryFeature where
  iso_a3 : String
  name : String
  geometry : Nat
deriving DecidableEq

/-- The preloaded `countryBordersGeoJSON` FeatureCollection. -/
structure GeoJSONData where
  features : List BoundaryFeature
deriving DecidableEq

/-- The fields `getCountryInfo` requests from the REST Countries API:
`name,capital,population,flags,cca3`. -/
structure CountryData where
  cca3 : String
  nameCommon : String
  nameOfficial : String
  capital : List String
  population : Nat
  flagsSvg : String
deriving DecidableEq

/-- Outcome of one `fetch` to the country-info service, as the script
can observe it: a non-2xx response (`response.ok` false), a 2xx response
whose body parses to a JSON array, or a 2xx response whose body makes
`response.json()` throw with some message. -/
inductive FetchOutcome where
  | notOk
  | okJson (data : List CountryData)
  | okMalformed (msg : String)
deriving DecidableEq

/-- `getCountryInfo` (script.js lines 91-96): returns `null` when the
response is not ok, otherwise `data[0]` (absent when the array is
empty); a body that fails to parse propagates an exception. -/
def getCountryInfo : FetchOutcome → Except String (Option CountryData)
  | .notOk => .ok none
  | .okJson data => .ok data.head?
  | .okMalformed msg => .error msg

/-- `findCountryGeometry` (script.js lines 103-108): `null` when the
borders file is not loaded, otherwise
`features.find(f => f.properties.ISO_A3 === code)` - a case-sensitive
exact comparison against the ISO_A3 property only. -/
def findCountryGeometry (countryBordersGeoJSON : Option GeoJSONData)
    (countryCodeISOA3 : String) : Option BoundaryFeature :=
  match countryBordersGeoJSON with
  | none => none
  | some gj => gj.features.find? (fun f => f.iso_a3 == countryCodeISOA3)

/-- The innerHTML of the trigger control: the search icon (idle) or the
spinner (busy). -/
inductive Icon where
  | searchIcon
  | spinner
deriving DecidableEq

/-- One call to `showToast`. -/
structure Toast where
  message : String
  isError : Bool
deriving DecidableEq

/-- Popup content built in `displayCountryOnMap`: common and official
name, `capital[0]`, and the population (its locale formatting is a
browser facility, so the raw number is kept). -/
structure PopupContent where
  nameCommon : String
  nameOfficial : String
  capitalFirst : Option String
  population : Nat
deriving DecidableEq

/-- One rendered overlay, as `displayCountryOnMap` constructs it. -/
structure Layer where
  patternId : String
  className : String
  fillPattern : String
  popup : PopupContent
  geometry : Nat
deriving DecidableEq

/-- The mutable state of the script. `mapLayers` is the set of feature
layers currently attached to the Leaflet map (`addTo` / `removeLayer`);
`featureLayers` is the script's own tracking array; `svgDefs` holds the
ids of the pattern definitions appended to the `<defs>` element;
`toasts` logs every toast shown; `fetchCount` counts country-info
requests issued. -/
structure AppState where
  featureLayers : List Layer
  mapLayers : List Layer
  isSearching : Bool
  countryBordersGeoJSON : Option GeoJSONData
  svgDefs : List String
  icon : Icon
  toasts : List Toast
  fetchCount : Nat
deriving DecidableEq

/-- `toggleLoading` (script.js lines 170-173). -/
def toggleLoading (loading : Bool) (s : AppState) : AppState :=
  { s with isSearching := loading,
           icon := if loading then Icon.spinner else Icon.searchIcon }

/-- `showToast` (script.js lines 175-181); the 4-second auto-hide is a
timer side effect outside the modelled state. -/
def showToast (message : String) (isError : Bool) (s : AppState) : AppState :=
  { s with toasts := s.toasts ++ [{ message := message, isError := isError }] }

/-- `clearAllLayers` (script.js lines 157-161): removes every tracked
layer from the map, empties the tracking array, and removes every child
of the `<defs>` element. -/
def clearAllLayers (s : AppState) : AppState :=
  { s with
    mapLayers := s.mapLayers.filter (fun l => !s.featureLayers.contains l),
    featureLayers := [],
    svgDefs := [] }

/-- The pattern id built in `displayCountryOnMap`. -/
def patternIdOf (countryCode : String) : String :=
  "flag-pattern-" ++ countryCode

/-- The layer `displayCountryOnMap` constructs from the country data and
the GeoJSON feature. -/
def makeLayer (countryData : CountryData) (feat : BoundaryFeature) : Layer :=
  { patternId := patternIdOf countryData.cca3,
    className := "neon-border",
    fillPattern := "url(#" ++ patternIdOf countryData.cca3 ++ ")",
    popup := { nameCommon := countryData.nameCommon,
               nameOfficial := countryData.nameOfficial,
               capitalFirst := countryData.capital.head?,
               population := countryData.population },
    geometry := feat.geometry }

/-- First step of `displayCountryOnMap`: append the flag pattern to the
`<defs>` element. -/
def appendPattern (countryData : CountryData) (s : AppState) : AppState :=
  { s with svgDefs := s.svgDefs ++ [patternIdOf countryData.cca3] }

/-- Second step of `displayCountryOnMap`: `L.geoJSON(...).addTo(map)`. -/
def addLayerToMap (l : Layer) (s : AppState) : AppState :=
  { s with mapLayers := s.mapLayers ++ [l] }

/-- Third step of `displayCountryOnMap`: `featureLayers.push(layer)`. -/
def pushFeatureLayer (l : Layer) (s : AppState) : AppState :=
  { s with featureLayers := s.featureLayers ++ [l] }

/-- `displayCountryOnMap` (script.js lines 115-153), in source order:
append the pattern definition, add the layer to the map, push it onto
`featureLayers`.  The popup open and `flyToBounds` are view-only side
effects outside the modelled state. -/
def displayCountryOnMap (countryData : CountryData) (feat : BoundaryFeature)
    (s : AppState) : AppState :=
  pushFeatureLayer (makeLayer countryData feat)
    (addLayerToMap (makeLayer countryData feat) (appendPattern countryData s))

/-- `c` is one of the whitespace characters `String.prototype.trim`
strips (the ones relevant to this widget's input). -/
def isWhitespaceChar (c : Char) : Bool :=
  c == ' ' || c == '\t' || c == '\n' || c == '\r'

/-- JavaScript `String.prototype.trim`: strip whitespace from both
ends. -/
def trimString (s : String) : String :=
  String.mk (((s.data.dropWhile isWhitespaceChar).reverse.dropWhile
    isWhitespaceChar).reverse)

/-- The not-found message thrown at script.js line 69, carrying the
trimmed query text. -/
def notFoundMessage (query : String) : String :=
  "کشوری با نام \"" ++ query ++ "\" یافت نشد."

/-- The missing-geometry message thrown at script.js line 74, carrying
the country's common name. -/
def geometryNotFoundMessage (nameCommon : String) : String :=
  "مرزهای جغرافیایی برای " ++ nameCommon ++ " یافت نشد."

/-- `handleSearch` (script.js lines 59-84).  `env` maps a query string
to the outcome of the REST Countries request for it.  The guard returns
immediately when the trimmed input is empty or a search is in flight;
otherwise the flow is: busy indicator on, clear previous layers, fetch
country info for the trimmed query, look up its geometry by `cca3`,
render; any failure is caught and shown as an error toast; the busy
indicator is always restored in `finally`. -/
def handleSearch (env : String → FetchOutcome) (inputValue : String)
    (s : AppState) : AppState :=
  let query := trimString inputValue
  if query == "" || s.isSearching then s
  else
    let s1 := toggleLoading true s
    let s2 := clearAllLayers s1
    let s3 := { s2 with fetchCount := s2.fetchCount + 1 }
    let tried : Except String AppState :=
      match getCountryInfo (env query) with
      | .error msg => .error msg
      | .ok none => .error (notFoundMessage query)
      | .ok (some countryData) =>
        match findCountryGeometry s3.countryBordersGeoJSON countryData.cca3 with
        | none => .error (geometryNotFoundMessage countryData.nameCommon)
        | some feat => .ok (displayCountryOnMap countryData feat s3)
    let s4 :=
      match tried with
      | .error msg => showToast msg true s3
      | .ok sOk => sOk
    toggleLoading false s4

/-- The state at `DOMContentLoaded`, before `preloadCountryBorders`
resolves: no layers, no patterns, idle icon, borders not loaded. -/
def initialState : AppState :=
  { featureLayers := [], mapLayers := [], isSearching := false,
    countryBordersGeoJSON := none, svgDefs := [], icon := Icon.searchIcon,
    toasts := [], fetchCount := 0 }

/-- `preloadCountryBorders` (script.js lines 44-54): on success store
the parsed FeatureCollection; on any failure show an error toast and
leave the store unset. -/
def preloadCountryBorders (result : Option GeoJSONData) (s : AppState) : AppState :=
  match result with
  | some gj => { s with countryBordersGeoJSON := some gj }
  | none => showToast "خطا در بارگذاری مرزهای جهانی" true s

/-- States reachable by the operations the script's event listeners can
trigger: the initial load, the borders preload settling, and any number
of searches. -/
inductive Reachable : AppState → Prop where
  | init : Reachable initialState
  | preload (result : Option GeoJSONData) {s : AppState} :
      Reachable s → Reachable (preloadCountryBorders result s)
  | search (env : String → FetchOutcome) (inputValue : String) {s : AppState} :
      Reachable s → Reachable (handleSearch env inputValue s)

/-- Consistency of the layer and pattern bookkeeping: every tracked
layer's pattern id is among the pattern definitions, every pattern
definition is owned by some tracked layer, and the layers attached to
the map are exactly the tracked ones. -/
def layersPatternsConsistent (s : AppState) : Prop :=
  (∀ l ∈ s.featureLayers, l.patternId ∈ s.svgDefs) ∧
  (∀ pid ∈ s.svgDefs, ∃ l ∈ s.featureLayers, l.patternId = pid) ∧
  s.mapLayers = s.featureLayers

/-! ### Concrete fixtures

Two real records of the boundary dataset and the country-info service,
used for witnesses and counterexamples. -/

/-- The Iran feature of the boundary dataset. -/
def iranFeature : BoundaryFeature :=
  { iso_a3 := "IRN", name := "Iran", geometry := 0 }

/-- The Germany feature of the boundary dataset. -/
def germanyFeature : BoundaryFeature :=
  { iso_a3 := "DEU", name := "Germany", geometry := 1 }

/-- A two-record boundary dataset. -/
def sampleGeo : GeoJSONData :=
  { features := [iranFeature, germanyFeature] }

/-- Country-info record for Iran. -/
def iranData : CountryData :=
  { cca3 := "IRN", nameCommon := "Iran",
    nameOfficial := "Islamic Republic of Iran",
    capital := ["Tehran"], population := 83992949,
    flagsSvg := "https://flagcdn.com/ir.svg" }

/-- Country-info record for Germany. -/
def germanyData : CountryData :=
  { cca3 := "DEU", nameCommon := "Germany",
    nameOfficial := "Federal Republic of Germany",
    capital := ["Berlin"], population := 83240525,
    flagsSvg := "https://flagcdn.com/de.svg" }

/-- An environment in which the country-info service knows the single
queries Iran and Germany and answers 404 to anything else - in
particular to the undivided string with plus signs in it. -/
def envBoth : String → FetchOutcome := fun q =>
  if q == "Iran" then .okJson [iranData]
  else if q == "Germany" then .okJson [germanyData]
  else .notOk

/-- An environment in which the country-info service is unreachable
with a non-2xx answer to every query. -/
def envDown : String → FetchOutcome := fun _ => .notOk

/-- An environment in which every country-info response body fails to
parse. -/
def envMalformed : String → FetchOutcome := fun _ =>
  .okMalformed "Unexpected end of JSON input"

/-- An environment that knows a country whose code has no geometry in
the boundary dataset. -/
def envNoGeometry : String → FetchOutcome := fun q =>
  if q == "Atlantis" then
    .okJson [{ cca3 := "ATL", nameCommon := "Atlantis",
               nameOfficial := "Kingdom of Atlantis",
               capital := [], population := 0, flagsSvg := "" }]
  else .notOk

/-- `initialState` with the borders preloaded. -/
def loadedState : AppState :=
  preloadCountryBorders (some sampleGeo) initialState

/-- The resolution of `query` ends in the catch block of `handleSearch`:
the country-info call throws, or yields no country, or yields a country
whose code has no geometry in the boundary store. -/
def resolutionFails (env : String → FetchOutcome)
    (borders : Option GeoJSONData) (query : String) : Prop :=
  match getCountryInfo (env query) with
  | .error _ => True
  | .ok none => True
  | .ok (some cd) => findCountryGeometry borders cd.cca3 = none

/-- The whole state after the busy flag is raised, the previous layers
are cleared and the country-info request has been issued: the middle of
a guard-passing `handleSearch` run. -/
def postClearState (s : AppState) : AppState :=
  { clearAllLayers (toggleLoading true s) with fetchCount := s.fetchCount + 1 }

end Borderline

deriving instance DecidableEq for Except

namespace Borderline

/-! ### Helper lemmas -/

/-- Both guard conditions of `handleSearch` make it return the state
unchanged. -/
theorem handleSearch_stuck_guard (env : String → FetchOutcome)
    (inputValue : String) (s : AppState)
    (h : trimString inputValue = "" ∨ s.isSearching = true) :
    handleSearch env inputValue s = s := by
  rcases h with h | h <;> simp [handleSearch, h]

/-- Characterization of a guard-passing `handleSearch` run: one fetch
for the trimmed query, then either a toast on the error path or the
rendered overlay, and the busy flag lowered at the end. -/
theorem handleSearch_run (env : String → FetchOutcome) (inputValue : String)
    (s : AppState) (hq : trimString inputValue ≠ "")
    (hs : s.isSearching = false) :
    handleSearch env inputValue s =
      toggleLoading false
        (match getCountryInfo (env (trimString inputValue)) with
         | .error msg => showToast msg true (postClearState s)
         | .ok none =>
             showToast (notFoundMessage (trimString inputValue)) true
               (postClearState s)
         | .ok (some cd) =>
             match findCountryGeometry s.countryBordersGeoJSON cd.cca3 with
             | none =>
                 showToast (geometryNotFoundMessage cd.nameCommon) true
                   (postClearState s)
             | some feat => displayCountryOnMap cd feat (postClearState s)) := by
  have hb : (trimString inputValue == "") = false := beq_eq_false_iff_ne.mpr hq
  cases hg : getCountryInfo (env (trimString inputValue)) with
  | error msg =>
      simp [handleSearch, hb, hs, hg, postClearState, clearAllLayers,
        toggleLoading, showToast]
  | ok o =>
    cases o with
    | none =>
        simp [handleSearch, hb, hs, hg, postClearState, clearAllLayers,
          toggleLoading, showToast]
    | some cd =>
      cases hf : findCountryGeometry s.countryBordersGeoJSON cd.cca3 with
      | none =>
          simp [handleSearch, hb, hs, hg, hf, postClearState, clearAllLayers,
            toggleLoading, showToast]
      | some feat =>
          simp [handleSearch, hb, hs, hg, hf, postClearState, clearAllLayers,
            toggleLoading, showToast]

/-- `handleSearch` never touches the preloaded borders store. -/
theorem handleSearch_borders (env : String → FetchOutcome)
    (inputValue : String) (s : AppState) :
    (handleSearch env inputValue s).countryBordersGeoJSON =
      s.countryBordersGeoJSON := by
  by_cases hq : trimString inputValue = ""
  · rw [handleSearch_stuck_guard env inputValue s (Or.inl hq)]
  · by_cases hs : s.isSearching = true
    · rw [handleSearch_stuck_guard env inputValue s (Or.inr hs)]
    · rw [handleSearch_run env inputValue s hq (by simpa using hs)]
      cases hg : getCountryInfo (env (trimString inputValue)) with
      | error msg =>
          simp [toggleLoading, showToast, postClearState, clearAllLayers]
      | ok o =>
        cases o with
        | none => simp [toggleLoading, showToast, postClearState, clearAllLayers]
        | some cd =>
          cases hf : findCountryGeometry s.countryBordersGeoJSON cd.cca3 with
          | none =>
              simp [hf, toggleLoading, showToast, postClearState, clearAllLayers]
          | some feat =>
              simp [hf, toggleLoading, showToast, postClearState, clearAllLayers,
                displayCountryOnMap, pushFeatureLayer, addLayerToMap,
                appendPattern]

/-- An idle state stays idle across `handleSearch` (the `finally` block
lowers the flag on every run). -/
theorem handleSearch_idle (env : String → FetchOutcome) (inputValue : String)
    (s : AppState) (hs : s.isSearching = false) :
    (handleSearch env inputValue s).isSearching = false := by
  by_cases hq : trimString inputValue = ""
  · rw [handleSearch_stuck_guard env inputValue s (Or.inl hq)]; exact hs
  · rw [handleSearch_run env inputValue s hq hs]
    cases hg : getCountryInfo (env (trimString inputValue)) with
    | error msg => simp [toggleLoading]
    | ok o =>
      cases o with
      | none => simp [toggleLoading]
      | some cd =>
        cases hf : findCountryGeometry s.countryBordersGeoJSON cd.cca3 with
        | none => simp [hf, toggleLoading]
        | some feat => simp [hf, toggleLoading]

/-- A guard-passing run whose resolution succeeds leaves exactly the one
new overlay and its one pattern definition. -/
theorem handleSearch_success (env : String → FetchOutcome)
    (inputValue : String) (s : AppState) (cd : CountryData)
    (feat : BoundaryFeature) (hq : trimString inputValue ≠ "")
    (hs : s.isSearching = false)
    (hg : getCountryInfo (env (trimString inputValue)) = .ok (some cd))
    (hf : findCountryGeometry s.countryBordersGeoJSON cd.cca3 = some feat) :
    (handleSearch env inputValue s).featureLayers = [makeLayer cd feat] ∧
    (handleSearch env inputValue s).svgDefs = [patternIdOf cd.cca3] := by
  rw [handleSearch_run env inputValue s hq hs, hg]
  simp [hf, toggleLoading, displayCountryOnMap, pushFeatureLayer, addLayerToMap,
    appendPattern, postClearState, clearAllLayers, makeLayer]

/-- Removing the members of a list from itself leaves nothing. -/
theorem filter_not_contains_self (l : List Layer) :
    l.filter (fun x => !l.contains x) = [] := by
  rw [List.filter_eq_nil_iff]
  intro a ha
  simp [ha]

/-- When the map holds exactly the tracked layers, `clearAllLayers`
empties all three collections. -/
theorem clearAllLayers_of_synced (s : AppState)
    (h : s.mapLayers = s.featureLayers) :
    clearAllLayers s =
      { s with mapLayers := [], featureLayers := [], svgDefs := [] } := by
  simp [clearAllLayers, h, filter_not_contains_self]

/-- A guard-passing run whose resolution fails leaves no overlay and no
pattern definition, and appends exactly one error toast. -/
theorem handleSearch_failure (env : String → FetchOutcome)
    (inputValue : String) (s : AppState) (hq : trimString inputValue ≠ "")
    (hs : s.isSearching = false)
    (hfail : resolutionFails env s.countryBordersGeoJSON
      (trimString inputValue)) :
    (handleSearch env inputValue s).featureLayers = [] ∧
    (handleSearch env inputValue s).svgDefs = [] ∧
    ∃ msg, (handleSearch env inputValue s).toasts =
      s.toasts ++ [{ message := msg, isError := true }] := by
  rw [handleSearch_run env inputValue s hq hs]
  unfold resolutionFails at hfail
  cases hg : getCountryInfo (env (trimString inputValue)) with
  | error msg =>
      exact ⟨by simp [toggleLoading, showToast, postClearState, clearAllLayers],
        by simp [toggleLoading, showToast, postClearState, clearAllLayers],
        msg, by simp [toggleLoading, showToast, postClearState, clearAllLayers]⟩
  | ok o =>
    cases o with
    | none =>
        exact ⟨by simp [toggleLoading, showToast, postClearState, clearAllLayers],
          by simp [toggleLoading, showToast, postClearState, clearAllLayers],
          notFoundMessage (trimString inputValue),
          by simp [toggleLoading, showToast, postClearState, clearAllLayers]⟩
    | some cd =>
        rw [hg] at hfail
        simp only [] at hfail
        refine ⟨?_, ?_, geometryNotFoundMessage cd.nameCommon, ?_⟩ <;>
          simp [hfail, toggleLoading, showToast, postClearState, clearAllLayers]

/-- The layer/pattern consistency survives `handleSearch`. -/
theorem consistent_handleSearch (env : String → FetchOutcome)
    (inputValue : String) (s : AppState)
    (h : layersPatternsConsistent s) :
    layersPatternsConsistent (handleSearch env inputValue s) := by
  by_cases hq : trimString inputValue = ""
  · rw [handleSearch_stuck_guard env inputValue s (Or.inl hq)]; exact h
  by_cases hs : s.isSearching = true
  · rw [handleSearch_stuck_guard env inputValue s (Or.inr hs)]; exact h
  rw [handleSearch_run env inputValue s hq (by simpa using hs)]
  have hmap := h.2.2
  cases hg : getCountryInfo (env (trimString inputValue)) with
  | error msg =>
      simp [layersPatternsConsistent, toggleLoading, showToast, postClearState,
        clearAllLayers, hmap, filter_not_contains_self]
  | ok o =>
    cases o with
    | none =>
        simp [layersPatternsConsistent, toggleLoading, showToast,
          postClearState, clearAllLayers, hmap, filter_not_contains_self]
    | some cd =>
      cases hf : findCountryGeometry s.countryBordersGeoJSON cd.cca3 with
      | none =>
          simp [hf, layersPatternsConsistent, toggleLoading, showToast,
            postClearState, clearAllLayers, hmap, filter_not_contains_self]
      | some feat =>
          simp [hf, layersPatternsConsistent, toggleLoading, showToast,
            postClearState, clearAllLayers, hmap, filter_not_contains_self,
            displayCountryOnMap, pushFeatureLayer, addLayerToMap,
            appendPattern, makeLayer]

/-- The layer/pattern consistency survives the borders preload. -/
theorem consistent_preload (result : Option GeoJSONData) (s : AppState)
    (h : layersPatternsConsistent s) :
    layersPatternsConsistent (preloadCountryBorders result s) := by
  cases result with
  | none =>
      obtain ⟨h1, h2, h3⟩ := h
      exact ⟨h1, h2, h3⟩
  | some gj =>
      obtain ⟨h1, h2, h3⟩ := h
      exact ⟨h1, h2, h3⟩

/-! ### Claim theorems -/

/-- Claim C1, counterexample.  The claim says the boundary store is
consulted first on the normalized query and the external lookup only on
a store miss.  Here the store holds an exact display-name match for the
query `"Iran"` (so no normalization subtlety is even involved), yet the
code still issues the external request first (`fetchCount` becomes 1),
and when that request fails the whole search fails with a not-found
toast instead of using the store's record: zero overlays result. -/
theorem resolution_order_counterexample :
    (sampleGeo.features.any (fun f => f.name == trimString "Iran")) = true ∧
    (handleSearch envDown "Iran" loadedState).fetchCount = 1 ∧
    (handleSearch envDown "Iran" loadedState).featureLayers = [] ∧
    (handleSearch envDown "Iran" loadedState).toasts =
      [{ message := notFoundMessage "Iran", isError := true }] := by
  decide

/-- Claim C1, amended.  Resolution order in the code: the query is
trimmed (not lowercased) and the external country-info lookup is always
consulted first - exactly one request per guard-passing search, even
when the boundary store could answer.  Only when the external lookup
yields a country is the boundary store consulted, by its 3-letter code;
when the external lookup yields no country the search fails with the
not-found toast carrying the trimmed query text. -/
theorem resolution_order_external_first (env : String → FetchOutcome)
    (inputValue : String) (s : AppState)
    (hq : trimString inputValue ≠ "") (hs : s.isSearching = false) :
    (handleSearch env inputValue s).fetchCount = s.fetchCount + 1 ∧
    (getCountryInfo (env (trimString inputValue)) = .ok none →
      (handleSearch env inputValue s).featureLayers = [] ∧
      (handleSearch env inputValue s).toasts = s.toasts ++
        [{ message := notFoundMessage (trimString inputValue),
           isError := true }]) ∧
    (∀ cd : CountryData,
      getCountryInfo (env (trimString inputValue)) = .ok (some cd) →
      ∀ feat : BoundaryFeature,
        findCountryGeometry s.countryBordersGeoJSON cd.cca3 = some feat →
        (handleSearch env inputValue s).featureLayers = [makeLayer cd feat]) := by
  refine ⟨?_, ?_, ?_⟩
  · rw [handleSearch_run env inputValue s hq hs]
    cases hg : getCountryInfo (env (trimString inputValue)) with
    | error msg =>
        simp [toggleLoading, showToast, postClearState, clearAllLayers]
    | ok o =>
      cases o with
      | none => simp [toggleLoading, showToast, postClearState, clearAllLayers]
      | some cd =>
        cases hf : findCountryGeometry s.countryBordersGeoJSON cd.cca3 with
        | none =>
            simp [hf, toggleLoading, showToast, postClearState, clearAllLayers]
        | some feat =>
            simp [hf, toggleLoading, showToast, postClearState, clearAllLayers,
              displayCountryOnMap, pushFeatureLayer, addLayerToMap,
              appendPattern]
  · intro hg
    rw [handleSearch_run env inputValue s hq hs, hg]
    exact ⟨by simp [toggleLoading, showToast, postClearState, clearAllLayers],
      by simp [toggleLoading, showToast, postClearState, clearAllLayers]⟩
  · intro cd hg feat hf
    exact (handleSearch_success env inputValue s cd feat hq hs hg hf).1

/-- Claim C1, amended, witness at the concrete fixtures: the down
environment and the loaded state. -/
theorem resolution_order_external_first_witness :
    (handleSearch envDown "Iran" loadedState).fetchCount =
      loadedState.fetchCount + 1 :=
  (resolution_order_external_first envDown "Iran" loadedState
    (by decide) (by decide)).1

/-- Claim C2, counterexample.  The claim says a `'+'`-separated input is
split and resolved per segment, accumulating overlays: for
`"Iran + Germany + Nonexistentland"`, two overlays and one error toast.
In the code there is no multi-location mode at all: with an environment
that resolves the single queries `"Iran"` and `"Germany"` (each alone
yields one overlay) but has no entry for the undivided string, the
combined input issues exactly one request for the whole string and
yields zero overlays and one error toast - not two overlays. -/
theorem multi_location_counterexample :
    (handleSearch envBoth "Iran" loadedState).featureLayers.length = 1 ∧
    (handleSearch envBoth "Germany" loadedState).featureLayers.length = 1 ∧
    (handleSearch envBoth "Iran + Germany + Nonexistentland"
      loadedState).featureLayers.length = 0 ∧
    (handleSearch envBoth "Iran + Germany + Nonexistentland"
      loadedState).fetchCount = 1 ∧
    (handleSearch envBoth "Iran + Germany + Nonexistentland"
      loadedState).toasts.length = 1 := by
  decide

/-- Claim C2, amended.  The search input is never split on `'+'`: the
whole trimmed input is resolved as one query (the outcome depends only
on the environment's answer for that single string), exactly one
external request is issued per guard-passing search, and at most one
overlay results - previous overlays having been cleared, they do not
accumulate. -/
theorem search_is_single_query (env envAlt : String → FetchOutcome)
    (inputValue : String) (s : AppState)
    (hq : trimString inputValue ≠ "") (hs : s.isSearching = false)
    (hsame : env (trimString inputValue) = envAlt (trimString inputValue)) :
    handleSearch env inputValue s = handleSearch envAlt inputValue s ∧
    (handleSearch env inputValue s).fetchCount = s.fetchCount + 1 ∧
    (handleSearch env inputValue s).featureLayers.length ≤ 1 := by
  refine ⟨?_, ?_, ?_⟩
  · rw [handleSearch_run env inputValue s hq hs,
      handleSearch_run envAlt inputValue s hq hs, hsame]
  · rw [handleSearch_run env inputValue s hq hs]
    cases hg : getCountryInfo (env (trimString inputValue)) with
    | error msg =>
        simp [toggleLoading, showToast, postClearState, clearAllLayers]
    | ok o =>
      cases o with
      | none => simp [toggleLoading, showToast, postClearState, clearAllLayers]
      | some cd =>
        cases hf : findCountryGeometry s.countryBordersGeoJSON cd.cca3 with
        | none =>
            simp [hf, toggleLoading, showToast, postClearState, clearAllLayers]
        | some feat =>
            simp [hf, toggleLoading, showToast, postClearState, clearAllLayers,
              displayCountryOnMap, pushFeatureLayer, addLayerToMap,
              appendPattern]
  · rw [handleSearch_run env inputValue s hq hs]
    cases hg : getCountryInfo (env (trimString inputValue)) with
    | error msg =>
        simp [toggleLoading, showToast, postClearState, clearAllLayers]
    | ok o =>
      cases o with
      | none => simp [toggleLoading, showToast, postClearState, clearAllLayers]
      | some cd =>
        cases hf : findCountryGeometry s.countryBordersGeoJSON cd.cca3 with
        | none =>
            simp [hf, toggleLoading, showToast, postClearState, clearAllLayers]
        | some feat =>
            simp [hf, toggleLoading, showToast, postClearState, clearAllLayers,
              displayCountryOnMap, pushFeatureLayer, addLayerToMap,
              appendPattern]

/-- Claim C2, amended, witness: the combined input behaves identically
under the both-countries environment and the down environment, because
neither knows the undivided string. -/
theorem search_is_single_query_witness :
    handleSearch envBoth "Iran + Germany + Nonexistentland" loadedState =
      handleSearch envDown "Iran + Germany + Nonexistentland" loadedState :=
  (search_is_single_query envBoth envDown
    "Iran + Germany + Nonexistentland" loadedState
    (by decide) (by decide) (by decide)).1

/-- Claim C3, counterexample.  The claim says the store lookup is a
case-insensitive exact match against display name OR id.  For the
stored Iran record (display name `"Iran"`, id `"IRN"`), only the exact
casing of the id matches: the casing variants `"irn"` and `"IrN"` of
the id and even the record's own display name `"Iran"` all miss. -/
theorem store_lookup_counterexample :
    findCountryGeometry (some sampleGeo) "IRN" = some iranFeature ∧
    findCountryGeometry (some sampleGeo) "irn" = none ∧
    findCountryGeometry (some sampleGeo) "IrN" = none ∧
    findCountryGeometry (some sampleGeo) "Iran" = none := by
  decide

/-- Claim C3, amended.  The store lookup is a case-sensitive exact match
against the record's 3-letter id (the `ISO_A3` property) only: a lookup
returns a record exactly when a stored feature carries that exact id
(the first such feature), the display name playing no role; with the
store unloaded every lookup misses. -/
theorem store_lookup_exact_id (gj : GeoJSONData) (code : String) :
    (∀ f : BoundaryFeature,
      findCountryGeometry (some gj) code = some f →
      f ∈ gj.features ∧ f.iso_a3 = code) ∧
    ((∃ f ∈ gj.features, f.iso_a3 = code) →
      ∃ f : BoundaryFeature, findCountryGeometry (some gj) code = some f) ∧
    findCountryGeometry none code = none := by
  refine ⟨?_, ?_, rfl⟩
  · intro f hf
    unfold findCountryGeometry at hf
    exact ⟨List.mem_of_find?_eq_some hf, by simpa using List.find?_some hf⟩
  · rintro ⟨f, hmem, hcode⟩
    unfold findCountryGeometry
    have : (gj.features.find? (fun g => g.iso_a3 == code)).isSome := by
      rw [List.find?_isSome]
      exact ⟨f, hmem, by simp [hcode]⟩
    obtain ⟨g, hg⟩ := Option.isSome_iff_exists.mp this
    exact ⟨g, hg⟩

/-- Claim C3, amended, witness at the Iran record. -/
theorem store_lookup_exact_id_witness :
    iranFeature ∈ sampleGeo.features ∧ iranFeature.iso_a3 = "IRN" :=
  (store_lookup_exact_id sampleGeo "IRN").1 iranFeature (by decide)

/-- Claim C4, counterexample.  The claim says a failed country-info
fetch is treated as absent facts and a degraded overlay is still
rendered.  With every response body malformed, the search for `"Iran"`
renders nothing at all - no layer, no pattern - and shows the caught
exception as an error toast: the fetch failure aborts the whole
search. -/
theorem facts_failure_counterexample :
    (handleSearch envMalformed "Iran" loadedState).featureLayers = [] ∧
    (handleSearch envMalformed "Iran" loadedState).svgDefs = [] ∧
    (handleSearch envMalformed "Iran" loadedState).toasts =
      [{ message := "Unexpected end of JSON input", isError := true }] ∧
    (handleSearch envDown "Iran" loadedState).featureLayers = [] ∧
    (handleSearch envDown "Iran" loadedState).toasts =
      [{ message := notFoundMessage "Iran", isError := true }] := by
  decide

/-- Claim C4, amended.  The country-info fetch is the primary resolution
step, not an enrichment: when it fails in any way (non-2xx or empty
result, i.e. `getCountryInfo` yields no country, or a malformed payload,
i.e. it throws), the search aborts entirely - no overlay (degraded or
otherwise) and no pattern definition is rendered, and exactly one error
toast is appended. -/
theorem facts_failure_aborts (env : String → FetchOutcome)
    (inputValue : String) (s : AppState)
    (hq : trimString inputValue ≠ "") (hs : s.isSearching = false)
    (hfail : getCountryInfo (env (trimString inputValue)) = .ok none ∨
      ∃ msg, getCountryInfo (env (trimString inputValue)) = .error msg) :
    (handleSearch env inputValue s).featureLayers = [] ∧
    (handleSearch env inputValue s).svgDefs = [] ∧
    (handleSearch env inputValue s).toasts.length = s.toasts.length + 1 := by
  have h := handleSearch_failure env inputValue s hq hs (by
    unfold resolutionFails
    rcases hfail with hfail | ⟨msg, hfail⟩ <;> rw [hfail] <;> trivial)
  obtain ⟨h1, h2, msg, h3⟩ := h
  exact ⟨h1, h2, by simp [h3]⟩

/-- Claim C4, amended, witness at the malformed-payload environment. -/
theorem facts_failure_aborts_witness :
    (handleSearch envMalformed "Iran" loadedState).featureLayers = [] ∧
    (handleSearch envMalformed "Iran" loadedState).svgDefs = [] ∧
    (handleSearch envMalformed "Iran" loadedState).toasts.length =
      loadedState.toasts.length + 1 :=
  facts_failure_aborts envMalformed "Iran" loadedState (by decide) (by decide)
    (Or.inr ⟨"Unexpected end of JSON input", by decide⟩)

/-- Claim C5, confirmed.  In every reachable state the active-layer set
and the pattern-definition set are consistent: each tracked layer's
pattern id exists among the definitions, each definition is owned by a
tracked layer, and the map holds exactly the tracked layers.  Moreover
`displayCountryOnMap` factors as pattern first, map-add second, tracking
third - at the moment the layer is added the pattern definition is
already present - and `clearAllLayers` always empties both sets
together. -/
theorem layers_patterns_invariant :
    (∀ s : AppState, Reachable s → layersPatternsConsistent s) ∧
    (∀ (cd : CountryData) (feat : BoundaryFeature) (s : AppState),
      displayCountryOnMap cd feat s =
        pushFeatureLayer (makeLayer cd feat)
          (addLayerToMap (makeLayer cd feat) (appendPattern cd s)) ∧
      patternIdOf cd.cca3 ∈ (appendPattern cd s).svgDefs) ∧
    (∀ s : AppState,
      (clearAllLayers s).featureLayers = [] ∧
      (clearAllLayers s).svgDefs = []) := by
  refine ⟨?_, ?_, ?_⟩
  · intro s h
    induction h with
    | init => simp [layersPatternsConsistent, initialState]
    | preload result h ih => exact consistent_preload _ _ ih
    | search env inputValue h ih => exact consistent_handleSearch _ _ _ ih
  · intro cd feat s
    exact ⟨rfl, by simp [appendPattern]⟩
  · intro s
    exact ⟨rfl, rfl⟩

/-- Claim C5, witness: consistency at the reachable state after a
successful search, and the joint emptying of a clear from there. -/
theorem layers_patterns_invariant_witness :
    layersPatternsConsistent (handleSearch envBoth "Iran" loadedState) ∧
    (clearAllLayers (handleSearch envBoth "Iran" loadedState)).featureLayers
      = [] ∧
    (clearAllLayers (handleSearch envBoth "Iran" loadedState)).svgDefs = [] :=
  ⟨layers_patterns_invariant.1 _
      (Reachable.search envBoth "Iran"
        (Reachable.preload (some sampleGeo) Reachable.init)),
    layers_patterns_invariant.2.2 _⟩

/-- Claim C6, confirmed.  `clearAllLayers` is idempotent: one run leaves
zero tracked layers and zero pattern definitions, and a second run
immediately after is a no-op returning the very same state. -/
theorem clear_idempotent (s : AppState) :
    (clearAllLayers s).featureLayers = [] ∧
    (clearAllLayers s).svgDefs = [] ∧
    clearAllLayers (clearAllLayers s) = clearAllLayers s := by
  refine ⟨rfl, rfl, ?_⟩
  simp [clearAllLayers]

/-- Claim C7, confirmed.  In single mode a new successful search
replaces the previous overlay: after a successful search and then a
second successful one, exactly the second overlay is tracked, never
two. -/
theorem single_mode_replaces (env : String → FetchOutcome)
    (in1 in2 : String) (s : AppState) (d1 d2 : CountryData)
    (f1 f2 : BoundaryFeature) (hs : s.isSearching = false)
    (h1q : trimString in1 ≠ "") (h2q : trimString in2 ≠ "")
    (h1 : getCountryInfo (env (trimString in1)) = .ok (some d1))
    (h1g : findCountryGeometry s.countryBordersGeoJSON d1.cca3 = some f1)
    (h2 : getCountryInfo (env (trimString in2)) = .ok (some d2))
    (h2g : findCountryGeometry s.countryBordersGeoJSON d2.cca3 = some f2) :
    (handleSearch env in1 s).featureLayers = [makeLayer d1 f1] ∧
    (handleSearch env in2 (handleSearch env in1 s)).featureLayers =
      [makeLayer d2 f2] := by
  refine ⟨(handleSearch_success env in1 s d1 f1 h1q hs h1 h1g).1, ?_⟩
  have hidle := handleSearch_idle env in1 s hs
  have hbord := handleSearch_borders env in1 s
  exact (handleSearch_success env in2 (handleSearch env in1 s) d2 f2 h2q hidle
    h2 (by rw [hbord]; exact h2g)).1

/-- Claim C7, witness: Iran then Germany leaves exactly Germany's
layer. -/
theorem single_mode_replaces_witness :
    (handleSearch envBoth "Iran" loadedState).featureLayers =
      [makeLayer iranData iranFeature] ∧
    (handleSearch envBoth "Germany"
      (handleSearch envBoth "Iran" loadedState)).featureLayers =
      [makeLayer germanyData germanyFeature] :=
  single_mode_replaces envBoth "Iran" "Germany" loadedState iranData
    germanyData iranFeature germanyFeature (by decide) (by decide) (by decide)
    (by decide) (by decide) (by decide) (by decide)

/-- Claim C8, confirmed.  Triggering a search while one is in flight
changes nothing, and every search that starts ends with the loading
flag lowered and the idle search icon restored, whatever the outcome. -/
theorem loading_flag_restored (env : String → FetchOutcome)
    (inputValue : String) (s : AppState) :
    (s.isSearching = true → handleSearch env inputValue s = s) ∧
    (s.isSearching = false →
      (handleSearch env inputValue s).isSearching = false ∧
      (trimString inputValue ≠ "" →
        (handleSearch env inputValue s).icon = Icon.searchIcon)) := by
  refine ⟨fun h => handleSearch_stuck_guard env inputValue s (Or.inr h),
    fun hs => ⟨handleSearch_idle env inputValue s hs, fun hq => ?_⟩⟩
  rw [handleSearch_run env inputValue s hq hs]
  simp [toggleLoading]

/-- Claim C8, witness: a busy state ignores the trigger; an idle search
against an unreachable service still ends idle with the search icon. -/
theorem loading_flag_restored_witness :
    handleSearch envDown "Iran" (toggleLoading true loadedState) =
      toggleLoading true loadedState ∧
    (handleSearch envDown "Iran" loadedState).isSearching = false ∧
    (handleSearch envDown "Iran" loadedState).icon = Icon.searchIcon := by
  refine ⟨(loading_flag_restored envDown "Iran"
    (toggleLoading true loadedState)).1 rfl, ?_, ?_⟩
  · exact ((loading_flag_restored envDown "Iran" loadedState).2 rfl).1
  · exact ((loading_flag_restored envDown "Iran" loadedState).2 rfl).2
      (by decide)

/-- Claim C9, confirmed.  A failed search is not atomic with respect to
rendered state: the clearing happened before resolution, so after any
guard-passing search whose resolution fails, the active-layer set and
the pattern-definition set are both empty - not the previous
contents. -/
theorem failed_search_not_atomic (env : String → FetchOutcome)
    (inputValue : String) (s : AppState)
    (hq : trimString inputValue ≠ "") (hs : s.isSearching = false)
    (hfail : resolutionFails env s.countryBordersGeoJSON
      (trimString inputValue)) :
    (handleSearch env inputValue s).featureLayers = [] ∧
    (handleSearch env inputValue s).svgDefs = [] := by
  have h := handleSearch_failure env inputValue s hq hs hfail
  exact ⟨h.1, h.2.1⟩

/-- Claim C9, witness: a state holding Iran's overlay, then a failing
search; the overlay is gone, not preserved. -/
theorem failed_search_not_atomic_witness :
    (handleSearch envBoth "Iran" loadedState).featureLayers.length = 1 ∧
    (handleSearch envBoth "Nonexistentland"
      (handleSearch envBoth "Iran" loadedState)).featureLayers = [] ∧
    (handleSearch envBoth "Nonexistentland"
      (handleSearch envBoth "Iran" loadedState)).svgDefs = [] := by
  refine ⟨by decide, ?_⟩
  exact failed_search_not_atomic envBoth "Nonexistentland" _ (by decide)
    (by decide) (by exact trivial)

/-- Claim C10, confirmed.  A search whose input trims to the empty
string is a complete no-op: the returned state is the starting state,
so layers, patterns, the loading flag, the request count and the toast
log are all untouched. -/
theorem empty_query_noop (env : String → FetchOutcome) (inputValue : String)
    (s : AppState) (h : trimString inputValue = "") :
    handleSearch env inputValue s = s :=
  handleSearch_stuck_guard env inputValue s (Or.inl h)

/-- Claim C10, witness: an all-whitespace input leaves the loaded state
untouched. -/
theorem empty_query_noop_witness :
    handleSearch envDown "   " loadedState = loadedState :=
  empty_query_noop envDown "   " loadedState (by decide)

end Borderline

